import Mathlib

/-!
Verification of the attenuation/intensity model and station-file parser of
`PGA_PGV_ALL_114007.py` (TREM-EEW intensity prediction performance analysis).

The numeric functions (`haversine`, `predict_pga`, `predict_pgv`,
`get_predicted_intensity`) are embedded over the real numbers; Python's
`**` on real exponents becomes `Real.rpow`, `math.log10` becomes
`Real.logb 10`, `math.atan2` is embedded as the standard piecewise
two-argument arctangent.

The parser (`parse_station_data`, `parse_actual_epicenter`) is embedded over
`List Char` with executable splitting/stripping primitives mirroring Python's
`str.split`, `str.strip` and the regex search used by the script.  Python's
`float()` conversion is abstracted as a parameter `pf : Str → Option ℚ` where
a universally quantified statement is intended, and is instantiated with
`parseDecimal` (an embedding of `float()` on plain optionally-signed decimal
literals) for concrete scenarios.
-/

/-- Embedding of `math.atan2 y x`: the two-argument arctangent. -/
noncomputable def atan2 (y x : ℝ) : ℝ :=
  if 0 < x then Real.arctan (y / x)
  else if x < 0 ∧ 0 ≤ y then Real.arctan (y / x) + Real.pi
  else if x < 0 ∧ y < 0 then Real.arctan (y / x) - Real.pi
  else if x = 0 ∧ 0 < y then Real.pi / 2
  else if x = 0 ∧ y < 0 then -(Real.pi / 2)
  else 0

/-- Embedding of `math.radians`: degrees to radians. -/
noncomputable def deg2rad (x : ℝ) : ℝ := x * (Real.pi / 180)

/-- The haversine intermediate `a = sin(dlat/2)**2 + cos(lat1)*cos(lat2)*sin(dlon/2)**2`
(angles already converted to radians), from `haversine` in the source. -/
noncomputable def hav_a (lon1 lat1 lon2 lat2 : ℝ) : ℝ :=
  Real.sin ((deg2rad lat2 - deg2rad lat1) / 2) ^ 2 +
    Real.cos (deg2rad lat1) * Real.cos (deg2rad lat2) *
      Real.sin ((deg2rad lon2 - deg2rad lon1) / 2) ^ 2

/-- Embedding of `haversine(lon1, lat1, lon2, lat2)`: great-circle distance in
km, Earth radius 6371.0, `c = 2*atan2(sqrt(a), sqrt(1-a))`, result `R*c`. -/
noncomputable def haversine (lon1 lat1 lon2 lat2 : ℝ) : ℝ :=
  6371.0 * (2 * atan2 (Real.sqrt (hav_a lon1 lat1 lon2 lat2))
    (Real.sqrt (1 - hav_a lon1 lat1 lon2 lat2)))

/-- The body of `predict_pga` as a function of the horizontal distance:
`1.657 * exp(1.533*mag) * (sqrt(d**2 + depth**2)) ** -1.607`. -/
noncomputable def pga_from_dist (d depth mag : ℝ) : ℝ :=
  1.657 * Real.exp (1.533 * mag) * Real.sqrt (d ^ 2 + depth ^ 2) ^ (-1.607 : ℝ)

/-- Embedding of `predict_pga(sta_lon, sta_lat, epi_lon, epi_lat, depth, mag)`. -/
noncomputable def predict_pga (sta_lon sta_lat epi_lon epi_lat depth mag : ℝ) : ℝ :=
  pga_from_dist (haversine epi_lon epi_lat sta_lon sta_lat) depth mag

/-- `long_term = (10 ** (0.5 * mag - 1.85)) / 2.0` from `predict_pgv`. -/
noncomputable def pgv_long_term (mag : ℝ) : ℝ := (10 : ℝ) ^ (0.5 * mag - 1.85) / 2.0

/-- `x = max(sqrt(depth**2 + d**2) - long_term, 3)` from `predict_pgv`,
as a function of the horizontal distance `d`. -/
noncomputable def pgv_x (d depth mag : ℝ) : ℝ :=
  max (Real.sqrt (depth ^ 2 + d ^ 2) - pgv_long_term mag) 3

/-- `term = x + 0.0028 * (10 ** (0.5 * mag))` from `predict_pgv`. -/
noncomputable def pgv_term (d depth mag : ℝ) : ℝ :=
  pgv_x d depth mag + 0.0028 * (10 : ℝ) ^ (0.5 * mag)

/-- The body of `predict_pgv` as a function of the horizontal distance:
`gpv600 = 10 ** (0.58*mag + 0.0038*depth - 1.29 - log10(term) - 0.002*x)`,
result `gpv600 * 1.31`. -/
noncomputable def pgv_from_dist (d depth mag : ℝ) : ℝ :=
  (10 : ℝ) ^ (0.58 * mag + 0.0038 * depth - 1.29 -
      Real.logb 10 (pgv_term d depth mag) - 0.002 * pgv_x d depth mag) * 1.31

/-- Embedding of `predict_pgv(sta_lon, sta_lat, epi_lon, epi_lat, depth, mag)`. -/
noncomputable def predict_pgv (sta_lon sta_lat epi_lon epi_lat depth mag : ℝ) : ℝ :=
  pgv_from_dist (haversine epi_lon epi_lat sta_lon sta_lat) depth mag

/-- The inner PGV-based sub-classification of `get_predicted_intensity`
(the `else` branch taken when `pga >= 80`), including the defensive `"?"`
fallback of the source. -/
def pgv_branch {α : Type} [LinearOrderedField α] (pgv : α) : String :=
  if pgv < 15 then "4"
  else if 15 ≤ pgv ∧ pgv < 30 then "5-"
  else if 30 ≤ pgv ∧ pgv < 50 then "5+"
  else if 50 ≤ pgv ∧ pgv < 80 then "6-"
  else if 80 ≤ pgv ∧ pgv < 140 then "6+"
  else if 140 ≤ pgv then "7"
  else "?"

/-- Embedding of `get_predicted_intensity(pga, pgv)`: the PGA threshold
cascade, falling through to the PGV sub-classification when `pga >= 80`. -/
def get_predicted_intensity {α : Type} [LinearOrderedField α] (pga pgv : α) : String :=
  if pga < 0.8 then "0"
  else if pga < 2.5 then "1"
  else if pga < 8 then "2"
  else if pga < 25 then "3"
  else if pga < 80 then "4"
  else pgv_branch pgv

/-- The ordered set of intensity codes from the specification (§4.3). -/
def intensityCodes : List String :=
  ["0", "1", "2", "3", "4", "5-", "5+", "6-", "6+", "7"]

/-- Spec-side formula for predicted PGA (§4.2 of the specification):
`slantDist = sqrt(horizontalDist² + depthKm²)`,
`result = 1.657 × exp(1.533 × magnitude) × slantDist^(−1.607)` with
`horizontalDist` the haversine distance from epicenter to station. -/
noncomputable def predictedPGA_spec (staLon staLat epiLon epiLat depthKm magnitude : ℝ) : ℝ :=
  let horizontalDist := haversine epiLon epiLat staLon staLat
  let slantDist := Real.sqrt (horizontalDist ^ 2 + depthKm ^ 2)
  1.657 * Real.exp (1.533 * magnitude) * slantDist ^ (-1.607 : ℝ)

/-- Spec-side formula for predicted PGV (§4.2 of the specification):
`longTermCorrection = 10^(0.5×magnitude − 1.85) / 2`,
`hypoDist = sqrt(depthKm² + horizontalDist²) − longTermCorrection`,
`x = max(hypoDist, 3.0)`, `term = x + 0.0028 × 10^(0.5×magnitude)`,
`gpv600 = 10^(0.58×magnitude + 0.0038×depthKm − 1.29 − log10(term) − 0.002×x)`,
`result = gpv600 × 1.31`. -/
noncomputable def predictedPGV_spec (staLon staLat epiLon epiLat depthKm magnitude : ℝ) : ℝ :=
  let horizontalDist := haversine epiLon epiLat staLon staLat
  let longTermCorrection := (10 : ℝ) ^ (0.5 * magnitude - 1.85) / 2
  let hypoDist := Real.sqrt (depthKm ^ 2 + horizontalDist ^ 2) - longTermCorrection
  let x := max hypoDist 3.0
  let term := x + 0.0028 * (10 : ℝ) ^ (0.5 * magnitude)
  let gpv600 := (10 : ℝ) ^ (0.58 * magnitude + 0.0038 * depthKm - 1.29 -
    Real.logb 10 term - 0.002 * x)
  gpv600 * 1.31

deriving instance DecidableEq for Except

/-- Text is modelled as a list of characters, so that all parsing
primitives are executable and kernel-reducible. -/
abbrev Str : Type := List Char

/-- `needle` is a leading segment of `s` (used to locate delimiters). -/
def listStartsWith : Str → Str → Bool
  | [], _ => true
  | _ :: _, [] => false
  | n :: ns, c :: cs => n == c && listStartsWith ns cs

/-- Fuel-driven worker for `splitOnStr`; `fuel` bounds the number of scanned
characters so the recursion is structural. -/
def splitOnFuel (sep : Str) : Nat → Str → Str → List Str
  | 0, s, acc => [acc.reverse ++ s]
  | _ + 1, [], acc => [acc.reverse]
  | fuel + 1, c :: rest, acc =>
    if listStartsWith sep (c :: rest) then
      acc.reverse :: splitOnFuel sep fuel (List.drop (sep.length - 1) rest) []
    else
      splitOnFuel sep fuel rest (c :: acc)

/-- Embedding of Python `text.split(sep)` for a nonempty separator:
non-overlapping, left-to-right. -/
def splitOnStr (sep s : Str) : List Str := splitOnFuel sep (s.length + 1) s []

/-- Embedding of Python `str.strip()`: remove leading and trailing
whitespace. -/
def pyStrip (s : Str) : Str :=
  ((s.dropWhile Char.isWhitespace).reverse.dropWhile Char.isWhitespace).reverse

/-- Embedding of the per-field step of `parse_station_data`: strip the field;
if it contains `=`, split at the first `=` into a stripped key/value pair,
otherwise skip the field. -/
def fieldKV (field : Str) : Option (Str × Str) :=
  let f := pyStrip field
  match splitOnStr ['='] f with
  | k :: v :: rest => some (pyStrip k, pyStrip (List.intercalate ['='] (v :: rest)))
  | _ => none

/-- The key/value pairs of one station segment: `"Stacode=" + part` split on
commas, each field processed by `fieldKV` (in order). -/
def recordOf (part : Str) : List (Str × Str) :=
  (splitOnStr (",").data (("Stacode=").data ++ part)).filterMap fieldKV

/-- Last-binding-wins lookup, matching Python dict assignment `station[k] = v`
executed left to right over the fields of a segment. -/
def lookupLast (kvs : List (Str × Str)) (k : Str) : Option Str :=
  kvs.foldl (fun acc kv => if kv.1 = k then some kv.2 else acc) none

/-- A parsed station record: code, longitude, latitude, observed intensity
label, observed PGA, observed PGV (numeric fields already coerced). -/
structure Station where
  code : Str
  lon : ℚ
  lat : ℚ
  intensity : Str
  pga : ℚ
  pgv : ℚ
deriving DecidableEq

def staCodeKey : Str := ("Stacode").data
def staLonKey : Str := ("Stalon").data
def staLatKey : Str := ("Stalat").data
def intKey : Str := ("Int").data
def pgaKey : Str := ("PGA(SUM)").data
def pgvKey : Str := ("PGV(SUM)").data

/-- The required keys of `parse_station_data`, in source order. -/
def requiredKeys : List Str := [staCodeKey, staLonKey, staLatKey, intKey, pgaKey, pgvKey]

/-- The four keys whose values are coerced with `float()`. -/
def numericKeys : List Str := [staLonKey, staLatKey, pgaKey, pgvKey]

/-- One iteration of the station loop of `parse_station_data`: if every
required key is present, coerce the four numeric fields (a failed coercion
drops the record, mirroring the `try`/`except` around `float()`), else drop
the record.  `pf` abstracts Python's `float()` conversion. -/
def stationOfRecord (pf : Str → Option ℚ) (kvs : List (Str × Str)) : Option Station :=
  if requiredKeys.all (fun k => (lookupLast kvs k).isSome) then
    (pf ((lookupLast kvs staLonKey).getD [])).bind fun lon =>
      (pf ((lookupLast kvs staLatKey).getD [])).bind fun lat =>
        (pf ((lookupLast kvs pgaKey).getD [])).bind fun pga =>
          (pf ((lookupLast kvs pgvKey).getD [])).bind fun pgv =>
            some ⟨(lookupLast kvs staCodeKey).getD [], lon, lat,
              (lookupLast kvs intKey).getD [], pga, pgv⟩
  else none

/-- Embedding of `parse_station_data` after the file has been decoded:
split on `"Stacode="`, return the stripped part before the first delimiter as
the header, and the accepted stations of the remaining segments in order. -/
def parse_station_data (pf : Str → Option ℚ) (text : Str) : Str × List Station :=
  let parts := splitOnStr ("Stacode=").data text
  (pyStrip (parts.headD []),
    ((parts.drop 1).map recordOf).filterMap (stationOfRecord pf))

/-- Spec-side usability invariant (§3 of the specification): all six required
keys are present and the four numeric fields parse as floats. -/
def usableRecord (pf : Str → Option ℚ) (kvs : List (Str × Str)) : Prop :=
  (∀ k ∈ requiredKeys, ∃ v, lookupLast kvs k = some v) ∧
  (∀ k ∈ numericKeys, ∃ v q, lookupLast kvs k = some v ∧ pf v = some q)

/-- Spec-side acceptance function: keep a record exactly when all six
required keys are present and the four numeric fields parse as floats;
otherwise drop it. -/
def mkStation_spec (pf : Str → Option ℚ) (kvs : List (Str × Str)) : Option Station :=
  if (∀ k ∈ requiredKeys, (lookupLast kvs k).isSome = true) ∧
      (∀ k ∈ numericKeys, (pf ((lookupLast kvs k).getD [])).isSome = true) then
    some ⟨(lookupLast kvs staCodeKey).getD [],
      (pf ((lookupLast kvs staLonKey).getD [])).getD 0,
      (pf ((lookupLast kvs staLatKey).getD [])).getD 0,
      (lookupLast kvs intKey).getD [],
      (pf ((lookupLast kvs pgaKey).getD [])).getD 0,
      (pf ((lookupLast kvs pgvKey).getD [])).getD 0⟩
  else none

/-- A digit or a dot, the character class `[\d\.]` of the epicenter regex. -/
def isDigitDot (c : Char) : Bool := c.isDigit || c == '.'

/-- Value of a digit string (most significant first). -/
def digitsToNat (ds : Str) : Nat := ds.foldl (fun n c => 10 * n + (c.toNat - 48)) 0

/-- Embedding of Python `float()` on an unsigned decimal body: digits,
optionally followed by a dot and further digits, with at least one digit
overall. -/
def decimalCore (body : Str) : Option ℚ :=
  let ip := body.takeWhile Char.isDigit
  match body.dropWhile Char.isDigit with
  | [] => if ip.isEmpty then none else some (digitsToNat ip : ℚ)
  | '.' :: fp =>
    if fp.all Char.isDigit && !(ip.isEmpty && fp.isEmpty) then
      some (mkRat (digitsToNat ip * 10 ^ fp.length + digitsToNat fp) (10 ^ fp.length))
    else none
  | _ => none

/-- Embedding of Python `float()` on plain optionally-signed decimal
literals (the only shapes occurring in the analysed scenarios; exponent
forms, `inf`/`nan` and surrounding whitespace are out of scope). -/
def parseDecimal (s : Str) : Option ℚ :=
  match s with
  | '-' :: body => (decimalCore body).map Neg.neg
  | '+' :: body => decimalCore body
  | _ => decimalCore s

/-- Embedding of `re.search(r"Label:([\d\.]+)", s)`: scan left to right for
the first position where `label` occurs followed by at least one digit/dot
character; the captured group is the maximal such run. -/
def searchNum (label : Str) : Str → Option Str
  | [] => none
  | c :: rest =>
    if listStartsWith label (c :: rest) then
      let num := List.takeWhile isDigitDot (List.drop label.length (c :: rest))
      if num.isEmpty then searchNum label rest else some num
    else searchNum label rest

def lonLabel : Str := ("Lon:").data
def latLabel : Str := ("Lat:").data

/-- Embedding of `parse_actual_epicenter(header)`: if both regex searches
match, convert both captured groups with `float()` — a failed conversion
raises (`Except.error`), mirroring the uncaught `ValueError`; if either
search fails, return `None`. -/
def parse_actual_epicenter (header : Str) : Except Unit (Option (ℚ × ℚ)) :=
  match searchNum lonLabel header, searchNum latLabel header with
  | some lonTok, some latTok =>
    match parseDecimal lonTok, parseDecimal latTok with
    | some lon, some lat => Except.ok (some (lon, lat))
    | _, _ => Except.error ()
  | _, _ => Except.ok none

/-- Embedding of the decode step of `parse_station_data`: the big5 decode is
attempted first; on decode failure the cp950 decode is attempted; if both
fail the error propagates.  The two decode outcomes are abstracted as
`Option` oracles since file contents live outside the program. -/
def read_station_text (big5 cp950 : Option Str) : Except Unit Str :=
  match big5 with
  | some t => Except.ok t
  | none =>
    match cp950 with
    | some t => Except.ok t
    | none => Except.error ()

/-- `parse_station_data` including the decode step: decode (with fallback),
then parse; a decode failure of both encodings aborts the whole run. -/
def parse_station_file (pf : Str → Option ℚ) (big5 cp950 : Option Str) :
    Except Unit (Str × List Station) :=
  (read_station_text big5 cp950).map (parse_station_data pf)

/-- The concrete parser-scenario input of §8 of the specification. -/
def c7Input : Str :=
  ("Header text Lon:120.57 Lat:23.23\nStacode=A1,Stalon=121.0,Stalat=23.5,Int=4級,PGA(SUM)=12.3,PGV(SUM)=5.1,Stacode=A2,Stalon=bad,Stalat=24.0,Int=3級,PGA(SUM)=5,PGV(SUM)=2").data

/-- C3: `predict_pga` equals the closed-form spec expression
`1.657 × exp(1.533 × magnitude) × slantDist^(−1.607)` with
`slantDist = sqrt(horizontalDist² + depth²)` and `horizontalDist` the
haversine distance from epicenter to station. -/
theorem predict_pga_eq_spec (staLon staLat epiLon epiLat depth mag : ℝ) :
    predict_pga staLon staLat epiLon epiLat depth mag =
      predictedPGA_spec staLon staLat epiLon epiLat depth mag := by
  rfl

/-- C2: `predict_pgv` equals the spec's chained formula: `gpv600 × 1.31` with
`gpv600 = 10^(0.58·mag + 0.0038·depth − 1.29 − log10(term) − 0.002·x)`,
`x = max(hypoDist, 3)`, `hypoDist = sqrt(depth² + horizontalDist²) −
longTermCorrection`, `longTermCorrection = 10^(0.5·mag − 1.85)/2`, and
`term = x + 0.0028·10^(0.5·mag)`. -/
theorem predict_pgv_eq_spec (staLon staLat epiLon epiLat depth mag : ℝ) :
    predict_pgv staLon staLat epiLon epiLat depth mag =
      predictedPGV_spec staLon staLat epiLon epiLat depth mag := by
  unfold predict_pgv predictedPGV_spec pgv_from_dist pgv_term pgv_x pgv_long_term
  norm_num

/-- C6: the haversine distance is symmetric in its two coordinate points, and
is `0` whenever the two points coincide. -/
theorem haversine_symm_and_zero :
    (∀ lon1 lat1 lon2 lat2 : ℝ,
      haversine lon1 lat1 lon2 lat2 = haversine lon2 lat2 lon1 lat1) ∧
    (∀ lon lat : ℝ, haversine lon lat lon lat = 0) := by
  constructor
  · intro lon1 lat1 lon2 lat2
    have hs : ∀ a b : ℝ, Real.sin ((a - b) / 2) ^ 2 = Real.sin ((b - a) / 2) ^ 2 := by
      intro a b
      rw [show (a - b) / 2 = -((b - a) / 2) by ring, Real.sin_neg, neg_sq]
    have ha : hav_a lon1 lat1 lon2 lat2 = hav_a lon2 lat2 lon1 lat1 := by
      unfold hav_a
      rw [hs (deg2rad lat2) (deg2rad lat1), hs (deg2rad lon2) (deg2rad lon1)]
      ring
    unfold haversine
    rw [ha]
  · intro lon lat
    have ha : hav_a lon lat lon lat = 0 := by
      unfold hav_a
      simp
    unfold haversine
    rw [ha]
    simp [atan2, Real.arctan_zero]

lemma three_le_pgv_term (d depth mag : ℝ) : 3 ≤ pgv_term d depth mag := by
  have hx : (3 : ℝ) ≤ pgv_x d depth mag := le_max_right _ _
  have hc : (0 : ℝ) < 0.0028 * (10 : ℝ) ^ (0.5 * mag) := by
    have : (0 : ℝ) < (10 : ℝ) ^ (0.5 * mag) := Real.rpow_pos_of_pos (by norm_num) _
    linarith
  unfold pgv_term
  linarith

lemma pgv_term_pos_aux (d depth mag : ℝ) : 0 < pgv_term d depth mag :=
  lt_of_lt_of_le (by norm_num) (three_le_pgv_term d depth mag)

/-- C9: inside `predict_pgv`, the argument of `log10` satisfies `term ≥ 3`
(hence `term > 0`) for every combination of coordinates, depth and magnitude,
so the logarithm is always applied to a positive number. -/
theorem pgv_term_pos :
    (∀ d depth mag : ℝ, 3 ≤ pgv_term d depth mag ∧ 0 < pgv_term d depth mag) ∧
    (∀ staLon staLat epiLon epiLat depth mag : ℝ,
      0 < pgv_term (haversine epiLon epiLat staLon staLat) depth mag ∧
      predict_pgv staLon staLat epiLon epiLat depth mag =
        pgv_from_dist (haversine epiLon epiLat staLon staLat) depth mag) := by
  refine ⟨fun d depth mag => ⟨three_le_pgv_term d depth mag, pgv_term_pos_aux d depth mag⟩,
    fun staLon staLat epiLon epiLat depth mag => ⟨pgv_term_pos_aux _ _ _, rfl⟩⟩

lemma pgv_branch_mem (pgv : ℝ) :
    pgv_branch pgv ∈ intensityCodes ∧ pgv_branch pgv ≠ "?" := by
  unfold pgv_branch intensityCodes
  split_ifs with h1 h2 h3 h4 h5 h6
  · exact ⟨by simp, by simp⟩
  · exact ⟨by simp, by simp⟩
  · exact ⟨by simp, by simp⟩
  · exact ⟨by simp, by simp⟩
  · exact ⟨by simp, by simp⟩
  · exact ⟨by simp, by simp⟩
  · exfalso
    push_neg at h2 h3 h4 h5
    have h15 : (15 : ℝ) ≤ pgv := not_lt.mp h1
    have h30 := h2 h15
    have h50 := h3 h30
    have h80 := h4 h50
    have h140 := h5 h80
    exact h6 h140

/-- C1: `get_predicted_intensity` is total over nonnegative (pga, pgv): its
value is always one of the ten intensity codes and never the `"?"` sentinel;
boundary values resolve to the upper bracket: pga exactly 0.8 gives "1",
2.5 gives "2", 8 gives "3", 25 gives "4", 80 falls through to the PGV branch;
on that branch pgv exactly 15 gives "5-", 30 gives "5+", 50 gives "6-",
80 gives "6+", 140 gives "7". -/
theorem intensity_total_and_boundaries :
    (∀ pga pgv : ℝ, 0 ≤ pga → 0 ≤ pgv →
      get_predicted_intensity pga pgv ∈ intensityCodes ∧
      get_predicted_intensity pga pgv ≠ "?") ∧
    (∀ pgv : ℝ,
      get_predicted_intensity (0.8 : ℝ) pgv = "1" ∧
      get_predicted_intensity (2.5 : ℝ) pgv = "2" ∧
      get_predicted_intensity (8 : ℝ) pgv = "3" ∧
      get_predicted_intensity (25 : ℝ) pgv = "4" ∧
      get_predicted_intensity (80 : ℝ) pgv = pgv_branch pgv) ∧
    (get_predicted_intensity (80 : ℝ) 15 = "5-" ∧
      get_predicted_intensity (80 : ℝ) 30 = "5+" ∧
      get_predicted_intensity (80 : ℝ) 50 = "6-" ∧
      get_predicted_intensity (80 : ℝ) 80 = "6+" ∧
      get_predicted_intensity (80 : ℝ) 140 = "7") := by
  refine ⟨?_, ?_, ?_⟩
  · intro pga pgv _ _
    unfold get_predicted_intensity
    split_ifs
    · exact ⟨by simp [intensityCodes], by simp⟩
    · exact ⟨by simp [intensityCodes], by simp⟩
    · exact ⟨by simp [intensityCodes], by simp⟩
    · exact ⟨by simp [intensityCodes], by simp⟩
    · exact ⟨by simp [intensityCodes], by simp⟩
    · exact pgv_branch_mem pgv
  · intro pgv
    refine ⟨?_, ?_, ?_, ?_, ?_⟩ <;> norm_num [get_predicted_intensity]
  · refine ⟨?_, ?_, ?_, ?_, ?_⟩ <;> norm_num [get_predicted_intensity, pgv_branch]

/-- Witness for C1: at pga = 1, pgv = 2 the hypotheses hold and the
classification lies in the code set and is not `"?"`. -/
theorem intensity_total_and_boundaries_witness :
    ((0 : ℝ) ≤ 1 ∧ (0 : ℝ) ≤ 2) ∧
    (get_predicted_intensity (1 : ℝ) 2 ∈ intensityCodes ∧
      get_predicted_intensity (1 : ℝ) 2 ≠ "?") :=
  ⟨⟨by norm_num, by norm_num⟩,
    intensity_total_and_boundaries.1 1 2 (by norm_num) (by norm_num)⟩

/-- C5: with depth and magnitude fixed (depth positive, per the documented
precondition that the slant distance is nonzero), both predicted PGA and
predicted PGV are antitone in the horizontal distance; `predict_pga` and
`predict_pgv` are exactly these distance functions applied to the haversine
distance from epicenter to station. -/
theorem predicted_motion_antitone :
    (∀ depth mag d1 d2 : ℝ, 0 < depth → 0 ≤ d1 → d1 ≤ d2 →
      pga_from_dist d2 depth mag ≤ pga_from_dist d1 depth mag ∧
      pgv_from_dist d2 depth mag ≤ pgv_from_dist d1 depth mag) ∧
    (∀ staLon staLat epiLon epiLat depth mag : ℝ,
      predict_pga staLon staLat epiLon epiLat depth mag =
        pga_from_dist (haversine epiLon epiLat staLon staLat) depth mag ∧
      predict_pgv staLon staLat epiLon epiLat depth mag =
        pgv_from_dist (haversine epiLon epiLat staLon staLat) depth mag) := by
  constructor
  · intro depth mag d1 d2 hdepth hd1 hd12
    have hsq : d1 ^ 2 ≤ d2 ^ 2 := pow_le_pow_left₀ hd1 hd12 2
    have hs12 : Real.sqrt (d1 ^ 2 + depth ^ 2) ≤ Real.sqrt (d2 ^ 2 + depth ^ 2) :=
      Real.sqrt_le_sqrt (by linarith)
    have hs12' : Real.sqrt (depth ^ 2 + d1 ^ 2) ≤ Real.sqrt (depth ^ 2 + d2 ^ 2) :=
      Real.sqrt_le_sqrt (by linarith)
    constructor
    · have hs1pos : 0 < Real.sqrt (d1 ^ 2 + depth ^ 2) := Real.sqrt_pos.mpr (by positivity)
      have hrp : Real.sqrt (d2 ^ 2 + depth ^ 2) ^ (-1.607 : ℝ) ≤
          Real.sqrt (d1 ^ 2 + depth ^ 2) ^ (-1.607 : ℝ) :=
        Real.rpow_le_rpow_of_nonpos hs1pos hs12 (by norm_num)
      have hC : (0 : ℝ) ≤ 1.657 * Real.exp (1.533 * mag) := by positivity
      unfold pga_from_dist
      exact mul_le_mul_of_nonneg_left hrp hC
    · have hx12 : pgv_x d1 depth mag ≤ pgv_x d2 depth mag := by
        unfold pgv_x
        exact max_le_max (sub_le_sub_right hs12' _) le_rfl
      have hterm12 : pgv_term d1 depth mag ≤ pgv_term d2 depth mag := by
        unfold pgv_term
        linarith
      have hlog : Real.logb 10 (pgv_term d1 depth mag) ≤
          Real.logb 10 (pgv_term d2 depth mag) :=
        Real.logb_le_logb_of_le (by norm_num) (pgv_term_pos_aux d1 depth mag) hterm12
      have hexp : 0.58 * mag + 0.0038 * depth - 1.29 -
            Real.logb 10 (pgv_term d2 depth mag) - 0.002 * pgv_x d2 depth mag ≤
          0.58 * mag + 0.0038 * depth - 1.29 -
            Real.logb 10 (pgv_term d1 depth mag) - 0.002 * pgv_x d1 depth mag := by
        linarith
      have hrp := Real.rpow_le_rpow_of_exponent_le (by norm_num : (1 : ℝ) ≤ 10) hexp
      unfold pgv_from_dist
      exact mul_le_mul_of_nonneg_right hrp (by norm_num)
  · exact fun staLon staLat epiLon epiLat depth mag => ⟨rfl, rfl⟩

/-- Witness for C5: at depth = 10, mag = 6, distances 1 ≤ 2 the hypotheses
hold and the predicted motion at distance 2 does not exceed that at 1. -/
theorem predicted_motion_antitone_witness :
    ((0 : ℝ) < 10 ∧ (0 : ℝ) ≤ 1 ∧ (1 : ℝ) ≤ 2) ∧
    (pga_from_dist 2 10 6 ≤ pga_from_dist 1 10 6 ∧
      pgv_from_dist 2 10 6 ≤ pgv_from_dist 1 10 6) :=
  ⟨⟨by norm_num, by norm_num, by norm_num⟩,
    predicted_motion_antitone.1 10 6 1 2 (by norm_num) (by norm_num) (by norm_num)⟩

lemma numericKeys_subset_required : ∀ k ∈ numericKeys, k ∈ requiredKeys := by decide

lemma stationOfRecord_eq_mkStation_spec (pf : Str → Option ℚ) (kvs : List (Str × Str)) :
    stationOfRecord pf kvs = mkStation_spec pf kvs := by
  unfold stationOfRecord mkStation_spec
  by_cases hreq : ∀ k ∈ requiredKeys, (lookupLast kvs k).isSome = true
  · rw [if_pos (List.all_eq_true.mpr hreq)]
    cases hp1 : pf ((lookupLast kvs staLonKey).getD []) with
    | none =>
      rw [if_neg]
      · simp
      · rintro ⟨_, hnum⟩
        have h := hnum staLonKey (by simp [numericKeys])
        rw [hp1] at h
        simp at h
    | some lon =>
      cases hp2 : pf ((lookupLast kvs staLatKey).getD []) with
      | none =>
        rw [if_neg]
        · simp
        · rintro ⟨_, hnum⟩
          have h := hnum staLatKey (by simp [numericKeys])
          rw [hp2] at h
          simp at h
      | some lat =>
        cases hp3 : pf ((lookupLast kvs pgaKey).getD []) with
        | none =>
          rw [if_neg]
          · simp
          · rintro ⟨_, hnum⟩
            have h := hnum pgaKey (by simp [numericKeys])
            rw [hp3] at h
            simp at h
        | some pga =>
          cases hp4 : pf ((lookupLast kvs pgvKey).getD []) with
          | none =>
            rw [if_neg]
            · simp
            · rintro ⟨_, hnum⟩
              have h := hnum pgvKey (by simp [numericKeys])
              rw [hp4] at h
              simp at h
          | some pgv =>
            have hnum4 : ∀ k ∈ numericKeys,
                (pf ((lookupLast kvs k).getD [])).isSome = true := by
              intro k hk
              simp only [numericKeys, List.mem_cons, List.not_mem_nil, or_false] at hk
              rcases hk with rfl | rfl | rfl | rfl
              · rw [hp1]; rfl
              · rw [hp2]; rfl
              · rw [hp3]; rfl
              · rw [hp4]; rfl
            rw [if_pos ⟨hreq, hnum4⟩]
            rfl
  · have hb : ¬(requiredKeys.all (fun k => (lookupLast kvs k).isSome) = true) := by
      simpa [List.all_eq_true] using hreq
    rw [if_neg hb, if_neg (fun h => hreq h.1)]

/-- C4: the stations returned by `parse_station_data` are exactly the
segments (in source order) that satisfy the spec's usability invariant:
all six required keys present and the four numeric fields parse as floats;
every other record is dropped without aborting the batch. -/
theorem parse_station_data_usable :
    ∀ (pf : Str → Option ℚ) (text : Str),
      (parse_station_data pf text).2 =
        (((splitOnStr ("Stacode=").data text).drop 1).map recordOf).filterMap
          (mkStation_spec pf) ∧
      (∀ kvs, (mkStation_spec pf kvs).isSome ↔ usableRecord pf kvs) := by
  intro pf text
  constructor
  · have h0 : (parse_station_data pf text).2 =
        (((splitOnStr ("Stacode=").data text).drop 1).map recordOf).filterMap
          (stationOfRecord pf) := rfl
    rw [h0,
      show stationOfRecord pf = mkStation_spec pf from
        funext (stationOfRecord_eq_mkStation_spec pf)]
  · intro kvs
    unfold mkStation_spec usableRecord
    by_cases hc : (∀ k ∈ requiredKeys, (lookupLast kvs k).isSome = true) ∧
        (∀ k ∈ numericKeys, (pf ((lookupLast kvs k).getD [])).isSome = true)
    · rw [if_pos hc]
      obtain ⟨hreq, hnum⟩ := hc
      simp only [Option.isSome_some, true_iff]
      constructor
      · intro k hk
        exact Option.isSome_iff_exists.mp (hreq k hk)
      · intro k hk
        obtain ⟨v, hv⟩ :=
          Option.isSome_iff_exists.mp (hreq k (numericKeys_subset_required k hk))
        have h1 := hnum k hk
        rw [hv] at h1
        simp only [Option.getD_some] at h1
        obtain ⟨q, hq⟩ := Option.isSome_iff_exists.mp h1
        exact ⟨v, q, hv, hq⟩
    · rw [if_neg hc]
      simp only [Option.isSome_none, Bool.false_eq_true, false_iff]
      rintro ⟨hpres, hnum⟩
      apply hc
      constructor
      · intro k hk
        obtain ⟨v, hv⟩ := hpres k hk
        simp [hv]
      · intro k hk
        obtain ⟨v, q, hv, hq⟩ := hnum k hk
        simp [hv, hq]

set_option maxRecDepth 10000 in
/-- C7: on the spec's concrete scenario input, the parser yields the header
`Header text Lon:120.57 Lat:23.23`, the actual epicenter extracted from that
header is (120.57, 23.23), and exactly one station (A1, at (121.0, 23.5)
with intensity 4級, PGA 12.3, PGV 5.1) is accepted; A2 is dropped because
its longitude `bad` is non-numeric. -/
theorem parser_concrete_scenario :
    parse_station_data parseDecimal c7Input =
      (("Header text Lon:120.57 Lat:23.23").data,
        [⟨("A1").data, 121, mkRat 47 2, ("4級").data, mkRat 123 10, mkRat 51 10⟩]) ∧
    parse_actual_epicenter (parse_station_data parseDecimal c7Input).1 =
      Except.ok (some (mkRat 12057 100, mkRat 2323 100)) := by
  constructor <;> decide

/-- C8: the primary (big5) decode is used whenever it succeeds, the secondary
(cp950) decode is used exactly when the primary fails, and the whole run
fails — producing no station data — exactly when both decodes fail. -/
theorem encoding_fallback_behavior :
    (∀ (t : Str) (cp950 : Option Str), read_station_text (some t) cp950 = Except.ok t) ∧
    (∀ t : Str, read_station_text none (some t) = Except.ok t) ∧
    read_station_text none none = Except.error () ∧
    (∀ (pf : Str → Option ℚ) (big5 cp950 : Option Str),
      parse_station_file pf big5 cp950 = Except.error () ↔ big5 = none ∧ cp950 = none) ∧
    (∀ (pf : Str → Option ℚ) (t : Str) (cp950 : Option Str),
      parse_station_file pf (some t) cp950 = Except.ok (parse_station_data pf t)) ∧
    (∀ (pf : Str → Option ℚ) (t : Str),
      parse_station_file pf none (some t) = Except.ok (parse_station_data pf t)) := by
  refine ⟨fun t cp950 => rfl, fun t => rfl, rfl, ?_, fun pf t cp950 => rfl, fun pf t => rfl⟩
  intro pf big5 cp950
  cases big5 <;> cases cp950 <;>
    simp [parse_station_file, read_station_text, Except.map]

/-- C10 counterexample: on the header `Lon:. Lat:.` both labels are followed
by a nonempty token of digits and dots, yet the function does not return an
epicenter pair — the `float()` conversion of `.` raises — so the claimed
equivalence between "returns Some" and "both labelled tokens present" fails
at this input. -/
theorem epicenter_claim_counterexample :
    ¬((∃ p, parse_actual_epicenter (("Lon:. Lat:.").data) = Except.ok (some p)) ↔
        ((searchNum lonLabel (("Lon:. Lat:.").data)).isSome = true ∧
          (searchNum latLabel (("Lon:. Lat:.").data)).isSome = true)) := by
  rintro ⟨_, hmpr⟩
  obtain ⟨p, hp⟩ := hmpr (by decide)
  have he : parse_actual_epicenter (("Lon:. Lat:.").data) = Except.error () := by decide
  rw [he] at hp
  exact Except.noConfusion hp

/-- C10 (amended): `parse_actual_epicenter` returns Some (lon, lat) iff both
labelled digit/dot tokens are present and both convert as floats; it returns
None iff either labelled token is absent (a present but unconvertible token
instead raises a conversion error); and a signed coordinate such as
`Lon:-120.5` is never matched by the digit/dot pattern, so such a header
yields None. -/
theorem epicenter_return_classification :
    (∀ h : Str,
      (∃ p, parse_actual_epicenter h = Except.ok (some p)) ↔
        (∃ lt la ql qa, searchNum lonLabel h = some lt ∧ searchNum latLabel h = some la ∧
          parseDecimal lt = some ql ∧ parseDecimal la = some qa)) ∧
    (∀ h : Str,
      parse_actual_epicenter h = Except.ok none ↔
        (searchNum lonLabel h = none ∨ searchNum latLabel h = none)) ∧
    parse_actual_epicenter (("Lon:-120.5 Lat:23.2").data) = Except.ok none := by
  refine ⟨?_, ?_, by decide⟩
  · intro h
    cases hl : searchNum lonLabel h with
    | none => simp [parse_actual_epicenter, hl]
    | some lt =>
      cases ha : searchNum latLabel h with
      | none => simp [parse_actual_epicenter, hl, ha]
      | some la =>
        cases hp : parseDecimal lt with
        | none => simp [parse_actual_epicenter, hl, ha, hp]
        | some ql =>
          cases hq : parseDecimal la with
          | none => simp [parse_actual_epicenter, hl, ha, hp, hq]
          | some qa => simp [parse_actual_epicenter, hl, ha, hp, hq]
  · intro h
    cases hl : searchNum lonLabel h with
    | none => simp [parse_actual_epicenter, hl]
    | some lt =>
      cases ha : searchNum latLabel h with
      | none => simp [parse_actual_epicenter, hl, ha]
      | some la =>
        cases hp : parseDecimal lt with
        | none => simp [parse_actual_epicenter, hl, ha, hp]
        | some ql =>
          cases hq : parseDecimal la with
          | none => simp [parse_actual_epicenter, hl, ha, hp, hq]
          | some qa => simp [parse_actual_epicenter, hl, ha, hp, hq]
